import Mathlib

/-!
Verification of the audiovault_tools repository.

This file gives a shallow embedding of the two Python scripts
(Mastering Assets/master_av.py and audiovault_master.py) and proves or
refutes the frozen behavioural claims about them.

The embedding models the filesystem as an association list from paths to
file contents, and every side effect (external ffmpeg invocation, rename,
removal, directory creation, manifest write, console message) as an event
appended to a trace.  External commands are modelled by their literal
argument vectors as built in the source.  An oracle (a list of booleans,
one per real external invocation, defaulting to success) decides whether
each external call succeeds, so both success and failure paths are
expressible.  Temporary names produced by tempfile.mktemp are modelled by
a counter producing fresh names in a reserved /tmp/tmp namespace.
-/

/-- Paths are strings, as in the Python source. -/
abbrev FPath := String

/-- File contents: opaque data blobs (identified by a number), the
incrementally written concat manifest (modelled as the ordered list of
referenced segment paths), and the result of a concat invocation
(recording the ordered segment paths it consumed). -/
inductive FContent
  | data (n : Nat)
  | manifest (lines : List FPath)
  | concatOf (lines : List FPath)
deriving DecidableEq

/-- The filesystem: an association list from paths to contents. -/
abbrev FS := List (FPath × FContent)

/-- Look up a path in the filesystem. -/
def fsGet (fs : FS) (p : FPath) : Option FContent :=
  (fs.find? (fun e => e.1 == p)).map (fun e => e.2)

/-- Existence check, as os.path.exists and os.path.isfile. -/
def fsExists (fs : FS) (p : FPath) : Bool :=
  (fsGet fs p).isSome

/-- Create or overwrite a file. -/
def fsSet (fs : FS) (p : FPath) (c : FContent) : FS :=
  (p, c) :: fs.filter (fun e => e.1 != p)

/-- Delete a file. -/
def fsRemove (fs : FS) (p : FPath) : FS :=
  fs.filter (fun e => e.1 != p)

/-- Observable events of a run.  Real side effects and their dry-run
counterparts (printed descriptions) are distinguished. -/
inductive Event
  | run (cmd : List String)
  | dry (cmd : List String)
  | renamed (src dst : FPath)
  | dryRename (src dst : FPath)
  | removed (p : FPath)
  | dryRemove (p : FPath)
  | mkdirs (p : FPath)
  | print (msg : String)
deriving DecidableEq

/-- Abnormal terminations: sys.exit with a message, an uncaught
subprocess.CalledProcessError from a check=True invocation, and an
uncaught OSError (for os.rename on a missing source). -/
inductive Err
  | exit (msg : String)
  | calledProcessError
  | osError
deriving DecidableEq

/-- The flag set taken by process_file in master_av.py. -/
structure Flags where
  add_bumper : Bool := false
  skip_bumper : Bool := false
  dry_run : Bool := false
  custom_head : Option FPath := none
  custom_tail : Option FPath := none
  no_head : Bool := false
  no_tail : Bool := false
deriving DecidableEq

/-- Machine state threaded through a run: the filesystem, the event
trace, the tempfile counter, the success oracle for external calls, and
the count of real external calls made so far. -/
structure Sys where
  fs : FS
  events : List Event
  tmpN : Nat
  oracle : List Bool
  calls : Nat
deriving DecidableEq

/-- Model of tempfile.mktemp: a fresh name in a reserved namespace,
carrying the requested suffix.  The name is not created on disk. -/
def mkTemp (s : Sys) (suffix : String) : FPath × Sys :=
  ("/tmp/tmp" ++ toString s.tmpN ++ suffix, { s with tmpN := s.tmpN + 1 })

/-- Model of subprocess.run with check=True: consults the oracle, records
the argument vector, and on success writes the given content at the
output path; on failure no output is produced. -/
def runReal (s : Sys) (cmd : List String) (outP : FPath) (content : FContent) :
    Sys × Bool :=
  let ok := s.oracle.getD s.calls true
  ({ s with
      fs := if ok then fsSet s.fs outP content else s.fs,
      events := s.events ++ [Event.run cmd],
      calls := s.calls + 1 }, ok)

/-- Default asset paths of master_av.py (os.path.expanduser left symbolic). -/
def DEFAULT_HEAD : FPath := "~/audio-vault-assets/avo_head.mp3"

/-- Default tail bumper path. -/
def DEFAULT_TAIL : FPath := "~/audio-vault-assets/avo_tail.mp3"

/-- Default silence asset path. -/
def SILENCE_PATH : FPath := "~/audio-vault-assets/silence_1s.mp3"

/-- Directory of the silence asset, as os.path.dirname(SILENCE_PATH). -/
def ASSETS_DIR : FPath := "~/audio-vault-assets"

/-- Argument vector of the silence generation command in generate_silence. -/
def silenceCmd (path : FPath) : List String :=
  ["ffmpeg", "-y", "-f", "lavfi", "-i", "anullsrc=r=48000:cl=stereo",
   "-t", "1", "-acodec", "libmp3lame", "-b:a", "192k", path]

/-- Argument vector of the canonicalization command in ensure_stereo_cbr. -/
def canonCmd (input_path output_path : FPath) : List String :=
  ["ffmpeg", "-y", "-i", input_path,
   "-ar", "48000", "-ac", "2", "-b:a", "192k", output_path]

/-- Filter string of the mastering command, built from PROFILE. -/
def masterFilter : String :=
  "acompressor=threshold=-18dB:ratio=3:attack=10:release=200," ++
  "loudnorm=I=-16.3:LRA=5:TP=-2.6"

/-- Argument vector of the mastering command in process_file. -/
def masterCmd (input_file temp_mastered : FPath) : List String :=
  ["ffmpeg", "-y", "-i", input_file,
   "-af", masterFilter,
   "-c:a", "libmp3lame", "-b:a", "192k", "-ar", "48000", "-ac", "2",
   temp_mastered]

/-- Argument vector of the lossless concatenation command in process_file. -/
def concatCmd (concat_list output_file : FPath) : List String :=
  ["ffmpeg", "-y", "-f", "concat", "-safe", "0", "-i", concat_list,
   "-c", "copy", output_file]

/-- Model of generate_silence: prints the command under dry run, else
invokes it for real. -/
def generate_silence (s : Sys) (path : FPath) (dry_run : Bool) : Sys × Bool :=
  let cmd := silenceCmd path
  if dry_run then ({ s with events := s.events ++ [Event.dry cmd] }, true)
  else runReal s cmd path (FContent.data (100 + s.calls))

/-- Model of ensure_stereo_cbr: prints the command under dry run, else
invokes it for real. -/
def ensure_stereo_cbr (s : Sys) (input_path output_path : FPath) (dry_run : Bool) :
    Sys × Bool :=
  let cmd := canonCmd input_path output_path
  if dry_run then ({ s with events := s.events ++ [Event.dry cmd] }, true)
  else runReal s cmd output_path (FContent.data (100 + s.calls))

/-- Model of validate_args: returns the sys.exit message of the first
violated rule, or none when all three checks pass.  A custom path is
treated as given exactly when present (Python truthiness of a
non-empty optional argument). -/
def validate_args (f : Flags) : Option String :=
  if f.skip_bumper &&
      (f.custom_head.isSome || f.custom_tail.isSome || f.no_head || f.no_tail) then
    some "Error: --skip-bumper cannot be used with bumper options like --custom-head or --no-tail"
  else if f.no_head && f.custom_head.isSome then
    some "Error: --no-head cannot be used with --custom-head"
  else if f.no_tail && f.custom_tail.isSome then
    some "Error: --no-tail cannot be used with --custom-tail"
  else
    none

/-- Append one segment reference line to the open concat manifest. -/
def manifestAppend (s : Sys) (mpath line : FPath) : Sys :=
  match fsGet s.fs mpath with
  | some (FContent.manifest ls) =>
      { s with fs := fsSet s.fs mpath (FContent.manifest (ls ++ [line])) }
  | _ => s

/-- Read the segment reference lines of a written manifest. -/
def manifestLines (s : Sys) (mpath : FPath) : List FPath :=
  match fsGet s.fs mpath with
  | some (FContent.manifest ls) => ls
  | _ => []

/-- Model of the silence preparation block of process_file: when the
silence asset is missing, prints a notice, creates the asset directory
(note: even under dry run), and generates the silence clip. -/
def prepSilence (s : Sys) (dry_run : Bool) : Sys × Bool :=
  if fsExists s.fs SILENCE_PATH then (s, true)
  else
    let s1 := { s with events := s.events ++
      [Event.print "Silence file not found, generating...", Event.mkdirs ASSETS_DIR] }
    generate_silence s1 SILENCE_PATH dry_run

/-- Model of the cleanup loop over [concat_list, silence_fixed]: removes
each path that exists, skipped entirely under dry run. -/
def cleanupList (s : Sys) (ps : List FPath) (dry_run : Bool) : Sys :=
  ps.foldl
    (fun st p =>
      if fsExists st.fs p && !dry_run then
        { st with fs := fsRemove st.fs p, events := st.events ++ [Event.removed p] }
      else st)
    s

/-- Model of process_file from master_av.py, translated clause by clause
from the source: validation, the mastering stage (skipped in add_bumper
mode, where the raw input stands as the body), the skip_bumper rename
short-cut, silence provisioning, canonicalization of silence, the
incremental manifest write with head and tail sections (each with an
existence check that exits on a missing bumper), the concat invocation,
and the two cleanup blocks. -/
def process_file (s : Sys) (input_file output_file : FPath) (fl : Flags) :
    Sys × Option Err :=
  match validate_args fl with
  | some msg => (s, some (Err.exit msg))
  | none =>
  let (tm0, s) := mkTemp s ".mp3"
  let masterStep : Sys × Option Err × FPath :=
    if !fl.add_bumper then
      let cmd := masterCmd input_file tm0
      if fl.dry_run then
        ({ s with events := s.events ++ [Event.dry cmd] }, none, tm0)
      else
        let r := runReal s cmd tm0 (FContent.data (100 + s.calls))
        if r.2 then (r.1, none, tm0) else (r.1, some Err.calledProcessError, tm0)
    else (s, none, input_file)
  match masterStep with
  | (s, some e, _) => (s, some e)
  | (s, none, temp_mastered) =>
  if fl.skip_bumper then
    if !fl.dry_run then
      match fsGet s.fs temp_mastered with
      | none => (s, some Err.osError)
      | some c =>
        ({ s with
            fs := fsSet (fsRemove s.fs temp_mastered) output_file c,
            events := s.events ++ [Event.renamed temp_mastered output_file] }, none)
    else
      ({ s with events := s.events ++ [Event.dryRename temp_mastered output_file] }, none)
  else
  match prepSilence s fl.dry_run with
  | (s, false) => (s, some Err.calledProcessError)
  | (s, true) =>
  let (silence_fixed, s) := mkTemp s ".mp3"
  match ensure_stereo_cbr s SILENCE_PATH silence_fixed fl.dry_run with
  | (s, false) => (s, some Err.calledProcessError)
  | (s, true) =>
  let (concat_list, s) := mkTemp s ".txt"
  let s := { s with fs := fsSet s.fs concat_list (FContent.manifest []) }
  let headStep : Sys × Option Err :=
    if !fl.no_head then
      let head_path := fl.custom_head.getD DEFAULT_HEAD
      if !(fsExists s.fs head_path) then
        (s, some (Err.exit ("Missing head bumper: " ++ head_path)))
      else
        let (head_fixed, s) := mkTemp s ".mp3"
        match ensure_stereo_cbr s head_path head_fixed fl.dry_run with
        | (s, false) => (s, some Err.calledProcessError)
        | (s, true) => (manifestAppend s concat_list head_fixed, none)
    else (s, none)
  match headStep with
  | (s, some e) => (s, some e)
  | (s, none) =>
  let s := manifestAppend s concat_list temp_mastered
  let tailStep : Sys × Option Err :=
    if !fl.no_tail then
      let tail_path := fl.custom_tail.getD DEFAULT_TAIL
      if !(fsExists s.fs tail_path) then
        (s, some (Err.exit ("Missing tail bumper: " ++ tail_path)))
      else
        let (tail_fixed, s) := mkTemp s ".mp3"
        match ensure_stereo_cbr s tail_path tail_fixed fl.dry_run with
        | (s, false) => (s, some Err.calledProcessError)
        | (s, true) =>
          let s := manifestAppend s concat_list silence_fixed
          let s := manifestAppend s concat_list tail_fixed
          (manifestAppend s concat_list silence_fixed, none)
    else (s, none)
  match tailStep with
  | (s, some e) => (s, some e)
  | (s, none) =>
  let cmdc := concatCmd concat_list output_file
  let concatStep : Sys × Option Err :=
    if fl.dry_run then
      ({ s with events := s.events ++ [Event.dry cmdc] }, none)
    else
      let r := runReal s cmdc output_file (FContent.concatOf (manifestLines s concat_list))
      if r.2 then (r.1, none) else (r.1, some Err.calledProcessError)
  match concatStep with
  | (s, some e) => (s, some e)
  | (s, none) =>
  let s := cleanupList s [concat_list, silence_fixed] fl.dry_run
  let s :=
    if !fl.add_bumper && temp_mastered != input_file && fsExists s.fs temp_mastered then
      if fl.dry_run then
        { s with events := s.events ++ [Event.dryRemove temp_mastered] }
      else
        { s with fs := fsRemove s.fs temp_mastered,
                 events := s.events ++ [Event.removed temp_mastered] }
    else s
  ({ s with events := s.events ++ [Event.print ("Mastering complete: " ++ output_file)] },
   none)

/-- Per-entry outcome of a batch run, following the BatchResult taxonomy
of the specification.  Produced entries correspond to a completed
process_file call, SkippedExisting to the existing-output skip, and
Failed to an abnormal termination raised while processing the entry. -/
inductive BatchResult
  | Produced
  | SkippedExisting
  | Failed (e : Err)
deriving DecidableEq

/-- Lowercasing of a string, as the Python str.lower call on an
extension (ASCII behaviour suffices for the extensions involved). -/
def lowerStr (s : String) : String :=
  String.mk (s.data.map Char.toLower)

/-- Model of os.path.splitext restricted to a bare filename: splits at
the last dot, except when every character before that dot is itself a
dot (Python does not split a leading-dot name). -/
def splitext (name : String) : String × String :=
  let cs := name.data
  let aft := cs.reverse.takeWhile (fun c => c != '.')
  if aft.length == cs.length then (name, "")
  else
    let stem := (cs.reverse.drop (aft.length + 1)).reverse
    if stem.all (fun c => c == '.') then (name, "")
    else (String.mk stem, String.mk ('.' :: aft.reverse))

/-- Model of run_batch from master_av.py over an explicit directory
listing.  Faithful to the source: non-files and unsupported extensions
are silently excluded; an existing output without force is skipped; and
because the source wraps process_file in no exception handler, an
abnormal termination raised while processing one entry aborts the
entire batch at that point (remaining entries are never visited). -/
def run_batch (s : Sys) (filenames : List String) (in_dir out_dir : FPath)
    (fl : Flags) (force : Bool) : Sys × List (String × BatchResult) × Option Err :=
  match filenames with
  | [] => (s, [], none)
  | fn :: rest =>
    let input_path := in_dir ++ "/" ++ fn
    if !(fsExists s.fs input_path) then
      run_batch s rest in_dir out_dir fl force
    else
      let ext := (splitext fn).2
      if !([".wav", ".mp3"].contains (lowerStr ext)) then
        run_batch s rest in_dir out_dir fl force
      else
        let output_path := out_dir ++ "/" ++ (splitext fn).1 ++ ".mp3"
        if fsExists s.fs output_path && !force then
          let s1 := { s with events := s.events ++
            [Event.print ("Skipping existing file: " ++ output_path)] }
          let r := run_batch s1 rest in_dir out_dir fl force
          (r.1, (fn, BatchResult.SkippedExisting) :: r.2.1, r.2.2)
        else
          let s1 := { s with events := s.events ++
            [Event.print ("Processing: " ++ input_path)] }
          match process_file s1 input_path output_path fl with
          | (s2, some e) => (s2, [(fn, BatchResult.Failed e)], some e)
          | (s2, none) =>
            let r := run_batch s2 rest in_dir out_dir fl force
            (r.1, (fn, BatchResult.Produced) :: r.2.1, r.2.2)

/-- Model of the single-file branch of main in master_av.py: requires an
existing input file, then delegates to process_file.  The force flag of
the CLI is accepted but never consulted on this branch (process_file
takes no force parameter), which the model mirrors by ignoring it. -/
def main_single (s : Sys) (input output : FPath) (fl : Flags) (_force : Bool) :
    Sys × Option Err :=
  if !(fsExists s.fs input) then (s, some (Err.exit "Invalid input file."))
  else process_file s input output fl

/-- Segment roles of an assembly plan. -/
inductive Segment
  | head
  | body
  | silence
  | tail
deriving DecidableEq

/-- The assembly plan computed by process_file for a validated flag set:
the skip_bumper short-cut renames the body alone, and otherwise the
manifest receives the head (when not omitted), then the body, then the
silence, tail, silence triple (when the tail is not omitted).  This is
the role-level reading of lines 72-107 of master_av.py. -/
def plan (f : Flags) : List Segment :=
  if f.skip_bumper then [Segment.body]
  else
    (if !f.no_head then [Segment.head] else []) ++ [Segment.body] ++
    (if !f.no_tail then [Segment.silence, Segment.tail, Segment.silence] else [])

/-- Materialization of a plan as concrete segment paths, for comparison
with the manifest actually written by process_file. -/
def planPaths (f : Flags) (head body silence tail : FPath) : List FPath :=
  (plan f).map (fun seg =>
    match seg with
    | Segment.head => head
    | Segment.body => body
    | Segment.silence => silence
    | Segment.tail => tail)

/-- Real side-effecting actions of a trace: external invocations,
renames and removals, in order. -/
def performedActs (evs : List Event) : List Event :=
  evs.filter (fun e =>
    match e with
    | Event.run _ => true
    | Event.renamed _ _ => true
    | Event.removed _ => true
    | _ => false)

/-- Planned actions recorded by the dry-run prints of a trace, mapped to
the real action each one describes, in order. -/
def plannedActs (evs : List Event) : List Event :=
  evs.filterMap (fun e =>
    match e with
    | Event.dry c => some (Event.run c)
    | Event.dryRename a b => some (Event.renamed a b)
    | Event.dryRemove p => some (Event.removed p)
    | _ => none)

/-- External invocations of a trace, in order. -/
def runCmds (evs : List Event) : List (List String) :=
  evs.filterMap (fun e =>
    match e with
    | Event.run c => some c
    | _ => none)

/-- Filter string of the audio processing command of audiovault_master.py. -/
def avFilter : String :=
  "acompressor=threshold=-24dB:ratio=4:attack=5:release=150," ++
  "acompressor=threshold=-18dB:ratio=3:attack=10:release=200," ++
  "loudnorm=I=-16.3:LRA=5:TP=-2.6"

/-- Argument vector of the audio processing command of
audiovault_master.py, including the aggressive-mode mutation of element
3 performed on the list by the source. -/
def avAudioCmd (input_file temp_audio : FPath) (aggressive : Bool) : List String :=
  let cmd := ["ffmpeg", "-i", input_file, "-af", avFilter,
              "-c:a", "libmp3lame", "-b:a", "192k", temp_audio]
  if aggressive then
    cmd.set 3 ("acompressor=threshold=-30dB:ratio=6:attack=2:release=100," ++ "-af")
  else cmd

/-- Argument vector of the mux command of audiovault_master.py. -/
def avMuxCmd (input_file temp_audio output_file : FPath) : List String :=
  ["ffmpeg", "-i", input_file, "-i", temp_audio,
   "-map", "0:v:0", "-map", "1:a:0", "-c:v", "copy", "-shortest", output_file]

/-- Model of process_file from audiovault_master.py: creates the
intermediate temp file immediately (NamedTemporaryFile with delete
disabled), runs the audio command then the mux command, removes the
temp on success, and catches CalledProcessError from either command,
removing the temp and returning normally so a caller loop continues.
The boolean result records whether muxing completed. -/
def av_process_file (s : Sys) (input_file output_file : FPath) (aggressive : Bool) :
    Sys × Bool :=
  let (temp_audio, s) := mkTemp s ".mp3"
  let s := { s with fs := fsSet s.fs temp_audio (FContent.data 0) }
  let r1 := runReal s (avAudioCmd input_file temp_audio aggressive) temp_audio
    (FContent.data (100 + s.calls))
  if r1.2 then
    let s := r1.1
    let r2 := runReal s (avMuxCmd input_file temp_audio output_file) output_file
      (FContent.data (100 + s.calls))
    if r2.2 then
      let s := r2.1
      ({ s with fs := fsRemove s.fs temp_audio,
                events := s.events ++ [Event.removed temp_audio,
                  Event.print "Muxing completed successfully." ] }, true)
    else
      let s := { r2.1 with events := r2.1.events ++
        [Event.print ("Error processing " ++ input_file)] }
      if fsExists s.fs temp_audio then
        ({ s with fs := fsRemove s.fs temp_audio,
                  events := s.events ++ [Event.removed temp_audio] }, false)
      else (s, false)
  else
    let s := { r1.1 with events := r1.1.events ++
      [Event.print ("Error processing " ++ input_file)] }
    if fsExists s.fs temp_audio then
      ({ s with fs := fsRemove s.fs temp_audio,
                events := s.events ++ [Event.removed temp_audio] }, false)
    else (s, false)

/-- Model of the directory branch of main in audiovault_master.py: every
discovered file is processed in turn with no early exit (per-file
errors are caught inside av_process_file), and the run always concludes
with the batch summary message. -/
def av_batch (s : Sys) (files : List (FPath × FPath)) (aggressive : Bool) :
    Sys × List Bool :=
  match files with
  | [] => ({ s with events := s.events ++ [Event.print "Batch processing complete!"] }, [])
  | (inp, outp) :: rest =>
    let r := av_process_file s inp outp aggressive
    let rr := av_batch r.1 rest aggressive
    (rr.1, r.2 :: rr.2)

/-- Concrete filesystem for single-file scenarios: an input clip with
content n and the three default assets present. -/
def clipFS (n : Nat) : FS :=
  [("clip.mp3", FContent.data n), (DEFAULT_HEAD, FContent.data 1),
   (DEFAULT_TAIL, FContent.data 2), (SILENCE_PATH, FContent.data 3)]

/-- Initial state over clipFS with a given oracle. -/
def clipSys (n : Nat) (oracle : List Bool) : Sys :=
  ⟨clipFS n, [], 0, oracle, 0⟩

/-- Concrete filesystem with the default head bumper absent. -/
def noHeadFS : FS :=
  [("clip.mp3", FContent.data 7), (DEFAULT_TAIL, FContent.data 2),
   (SILENCE_PATH, FContent.data 3)]

/-- Initial state over noHeadFS with an all-success oracle. -/
def noHeadClipSys : Sys :=
  ⟨noHeadFS, [], 0, [], 0⟩

/-- Concrete filesystem for batch scenarios: three candidate inputs, a
non-candidate text file, and the three default assets. -/
def batchFS : FS :=
  [("in/a.wav", FContent.data 11), ("in/b.wav", FContent.data 12),
   ("in/c.wav", FContent.data 13), ("in/notes.txt", FContent.data 9),
   (DEFAULT_HEAD, FContent.data 1), (DEFAULT_TAIL, FContent.data 2),
   (SILENCE_PATH, FContent.data 3)]

/-- Initial state over batchFS with a given oracle. -/
def batchSys (oracle : List Bool) : Sys :=
  ⟨batchFS, [], 0, oracle, 0⟩

/-- Batch state whose default head bumper is absent. -/
def noHeadBatchSys : Sys :=
  ⟨[("in/a.wav", FContent.data 11), (DEFAULT_TAIL, FContent.data 2),
    (SILENCE_PATH, FContent.data 3)], [], 0, [], 0⟩

/-- Initial state for audiovault_master.py batch scenarios: three inputs
and an oracle failing the third external call (the audio command of the
second file). -/
def avSys : Sys :=
  ⟨[("x.wav", FContent.data 1), ("y.wav", FContent.data 2),
    ("z.wav", FContent.data 3)], [], 0, [true, true, false], 0⟩

/-- Flag set omitting only the tail. -/
def fl_nt : Flags := { no_tail := true }

/-- Flag set omitting only the head. -/
def fl_nh : Flags := { no_head := true }

/-- Flag set violating the second validation rule. -/
def fl_row2 : Flags := { no_head := true, custom_head := some "h.mp3" }

/-- Error raised by the missing default head bumper. -/
def missHeadErr : Err :=
  Err.exit ("Missing head bumper: " ++ DEFAULT_HEAD)

/-- Claim C2, counterexample.  The fourth row of the validation table
(no-tail with neither a custom head nor an available default head) is
not checked by validate_args: the combination passes validation, the
mastering and silence canonicalization commands are issued, and only
then does the run exit with a missing-asset message, contradicting the
claim that it fails with InvalidFlagCombinationError before any audio
processing begins. -/
theorem C2_counterexample :
    validate_args fl_nt = none ∧
    (process_file ⟨noHeadFS, [], 0, [], 0⟩ "clip.mp3" "out.mp3" fl_nt).2 =
      some missHeadErr ∧
    runCmds (process_file ⟨noHeadFS, [], 0, [], 0⟩ "clip.mp3" "out.mp3" fl_nt).1.events =
      [masterCmd "clip.mp3" "/tmp/tmp0.mp3", canonCmd SILENCE_PATH "/tmp/tmp1.mp3"] := by
  decide

/-- Claim C2, amended.  Only the first three rows of the validation
table are enforced: any flag set matching one of the three checked
combinations is rejected by validate_args, and process_file then
returns the corresponding exit immediately, with the state unchanged
(no filesystem side effect and no external call).  The fourth-row
combination is not validated and instead fails later with a
missing-asset exit after external calls have been issued. -/
theorem C2_theorem :
    (∀ f : Flags,
      (f.skip_bumper &&
          (f.custom_head.isSome || f.custom_tail.isSome || f.no_head || f.no_tail) ||
        f.no_head && f.custom_head.isSome ||
        f.no_tail && f.custom_tail.isSome) = true →
      (validate_args f).isSome = true) ∧
    (∀ (s : Sys) (i o : FPath) (f : Flags) (msg : String),
      validate_args f = some msg →
      process_file s i o f = (s, some (Err.exit msg))) := by
  constructor
  · intro f h
    unfold validate_args
    split_ifs <;> simp_all
  · intro s i o f msg h
    unfold process_file
    rw [h]

/-- Claim C2, witness: the second validation row at a concrete state. -/
theorem C2_witness :
    (validate_args fl_row2).isSome = true ∧
    process_file (clipSys 7 []) "clip.mp3" "out.mp3" fl_row2 =
      (clipSys 7 [], some (Err.exit "Error: --no-head cannot be used with --custom-head")) :=
  ⟨C2_theorem.1 fl_row2 (by decide),
   C2_theorem.2 (clipSys 7 []) "clip.mp3" "out.mp3" fl_row2
     "Error: --no-head cannot be used with --custom-head" (by decide)⟩

/-- Claim C3.  Divergence of the code from the dry-run contract at a
concrete failing input (default flags with dry_run set, all assets
present): the dry run succeeds and issues no external call, yet it
creates the concat manifest file on disk and leaves it behind (a
filesystem mutation), and the sequence of actions it records differs
from the sequence a real run performs on the same state (the real run
additionally removes the manifest, the canonical silence copy and the
mastered intermediate, none of which the dry run records). -/
theorem C3_theorem :
    (process_file (clipSys 7 []) "clip.mp3" "out.mp3" { dry_run := true }).2 = none ∧
    runCmds (process_file (clipSys 7 []) "clip.mp3" "out.mp3" { dry_run := true }).1.events = [] ∧
    fsExists (clipSys 7 []).fs "/tmp/tmp2.txt" = false ∧
    fsExists (process_file (clipSys 7 []) "clip.mp3" "out.mp3" { dry_run := true }).1.fs
      "/tmp/tmp2.txt" = true ∧
    plannedActs (process_file (clipSys 7 []) "clip.mp3" "out.mp3" { dry_run := true }).1.events ≠
      performedActs (process_file (clipSys 7 []) "clip.mp3" "out.mp3" {}).1.events := by
  decide

/-- Claim C5, counterexample.  In bumper-only mode combined with
skip-bumper, the pipeline renames the caller-supplied input onto the
output path: after a successful real run the input no longer exists at
its original path, contradicting the claim that the input is never
deleted or moved with or without skip-bumper. -/
theorem C5_counterexample :
    (process_file (clipSys 7 []) "clip.mp3" "out.mp3"
        { add_bumper := true, skip_bumper := true }).2 = none ∧
    fsExists (process_file (clipSys 7 []) "clip.mp3" "out.mp3"
        { add_bumper := true, skip_bumper := true }).1.fs "clip.mp3" = false ∧
    (process_file (clipSys 7 []) "clip.mp3" "out.mp3"
        { add_bumper := true, skip_bumper := true }).1.events =
      [Event.renamed "clip.mp3" "out.mp3"] := by
  decide

/-- Claim C5, amended.  In bumper-only mode without skip-bumper the
caller-supplied input does stand as the body segment and survives with
unchanged content after every run, successful or failed: for every
outcome of the four external calls, and also when a missing head bumper
aborts the run, the input file is still present with its original
content.  With skip-bumper, however, the input is renamed to the output
path (its content moves there and its original path is gone). -/
theorem C5_theorem :
    (∀ b0 b1 b2 b3 : Bool,
      fsGet (process_file (clipSys 7 [b0, b1, b2, b3]) "clip.mp3" "out.mp3"
          { add_bumper := true }).1.fs "clip.mp3" = some (FContent.data 7)) ∧
    fsGet (process_file noHeadClipSys "clip.mp3" "out.mp3"
        { add_bumper := true }).1.fs "clip.mp3" = some (FContent.data 7) ∧
    fsGet (process_file (clipSys 7 []) "clip.mp3" "out.mp3"
        { add_bumper := true, skip_bumper := true }).1.fs "clip.mp3" = none ∧
    fsGet (process_file (clipSys 7 []) "clip.mp3" "out.mp3"
        { add_bumper := true, skip_bumper := true }).1.fs "out.mp3" =
      some (FContent.data 7) := by
  refine ⟨?_, by decide, by decide, by decide⟩
  intro b0 b1 b2 b3
  cases b0 <;> cases b1 <;> cases b2 <;> cases b3 <;> decide

/-- Claim C6, counterexample.  Even on a fully successful default run
the canonicalized copies of the head and tail bumpers are never removed
by process_file: they are still on disk after the run completes,
contradicting the claim that every temporary is removed on the success
path. -/
theorem C6_counterexample :
    (process_file (clipSys 7 []) "clip.mp3" "out.mp3" {}).2 = none ∧
    fsExists (process_file (clipSys 7 []) "clip.mp3" "out.mp3" {}).1.fs
      "/tmp/tmp3.mp3" = true ∧
    fsExists (process_file (clipSys 7 []) "clip.mp3" "out.mp3" {}).1.fs
      "/tmp/tmp4.mp3" = true := by
  decide

/-- Claim C6, amended.  On the success path process_file removes only
the manifest, the canonical silence copy and the mastered intermediate,
leaking the canonical head and tail copies; on a failure path (concat
call fails) no cleanup runs at all and all five temporaries remain.  By
contrast, process_file of audiovault_master.py does remove its single
temporary on both its success and its failure path without escalating
the failure. -/
theorem C6_theorem :
    (fsExists (process_file (clipSys 7 []) "clip.mp3" "out.mp3" {}).1.fs "/tmp/tmp0.mp3" = false ∧
     fsExists (process_file (clipSys 7 []) "clip.mp3" "out.mp3" {}).1.fs "/tmp/tmp1.mp3" = false ∧
     fsExists (process_file (clipSys 7 []) "clip.mp3" "out.mp3" {}).1.fs "/tmp/tmp2.txt" = false ∧
     fsExists (process_file (clipSys 7 []) "clip.mp3" "out.mp3" {}).1.fs "/tmp/tmp3.mp3" = true ∧
     fsExists (process_file (clipSys 7 []) "clip.mp3" "out.mp3" {}).1.fs "/tmp/tmp4.mp3" = true) ∧
    ((process_file (clipSys 7 [true, true, true, true, false]) "clip.mp3" "out.mp3" {}).2 =
        some Err.calledProcessError ∧
     [("/tmp/tmp0.mp3" : FPath), "/tmp/tmp1.mp3", "/tmp/tmp2.txt", "/tmp/tmp3.mp3", "/tmp/tmp4.mp3"].all
       (fun p => fsExists (process_file (clipSys 7 [true, true, true, true, false])
          "clip.mp3" "out.mp3" {}).1.fs p) = true) ∧
    (fsExists (av_process_file (clipSys 7 []) "clip.mp3" "o.mp3" false).1.fs "/tmp/tmp0.mp3" = false ∧
     fsExists (av_process_file (clipSys 7 [false]) "clip.mp3" "o.mp3" false).1.fs "/tmp/tmp0.mp3" = false ∧
     fsExists (av_process_file (clipSys 7 [true, false]) "clip.mp3" "o.mp3" false).1.fs "/tmp/tmp0.mp3" = false) := by
  decide

/-- Claim C7, counterexample.  In bumper-only mode the body segment
sent to concatenation is the raw caller-supplied input: the concat
consumed it directly, and no external call (neither canonicalization
nor normalization) ever took the input as its source, contradicting
the claim that the body is either coerced into canonical form or
emerges from the normalizer in that form. -/
theorem C7_counterexample :
    (process_file (clipSys 7 []) "clip.mp3" "out.mp3" { add_bumper := true }).2 = none ∧
    fsGet (process_file (clipSys 7 []) "clip.mp3" "out.mp3" { add_bumper := true }).1.fs
        "out.mp3" =
      some (FContent.concatOf
        ["/tmp/tmp3.mp3", "clip.mp3", "/tmp/tmp1.mp3", "/tmp/tmp4.mp3", "/tmp/tmp1.mp3"]) ∧
    (runCmds (process_file (clipSys 7 []) "clip.mp3" "out.mp3"
        { add_bumper := true }).1.events).filter
      (fun c => c.getD 3 "" == "clip.mp3") = [] := by
  decide

/-- Claim C7, amended.  Every non-body segment (silence, head, tail) is
always re-encoded into a fresh canonical copy before concatenation, and
in mastering mode the body emerges from the mastering command already
in canonical form (the command fixes 48 kHz, stereo, 192 kb/s); but in
bumper-only mode the raw input is concatenated without any
canonicalization. -/
theorem C7_theorem :
    (runCmds (process_file (clipSys 7 []) "clip.mp3" "out.mp3" {}).1.events =
      [masterCmd "clip.mp3" "/tmp/tmp0.mp3",
       canonCmd SILENCE_PATH "/tmp/tmp1.mp3",
       canonCmd DEFAULT_HEAD "/tmp/tmp3.mp3",
       canonCmd DEFAULT_TAIL "/tmp/tmp4.mp3",
       concatCmd "/tmp/tmp2.txt" "out.mp3"] ∧
     fsGet (process_file (clipSys 7 []) "clip.mp3" "out.mp3" {}).1.fs "out.mp3" =
      some (FContent.concatOf
        ["/tmp/tmp3.mp3", "/tmp/tmp0.mp3", "/tmp/tmp1.mp3", "/tmp/tmp4.mp3", "/tmp/tmp1.mp3"]) ∧
     ["-ar", "48000", "-ac", "2", "-b:a", "192k"].all
       (fun a => (masterCmd "clip.mp3" "/tmp/tmp0.mp3").contains a) = true) ∧
    (runCmds (process_file (clipSys 7 []) "clip.mp3" "out.mp3" { add_bumper := true }).1.events =
      [canonCmd SILENCE_PATH "/tmp/tmp1.mp3",
       canonCmd DEFAULT_HEAD "/tmp/tmp3.mp3",
       canonCmd DEFAULT_TAIL "/tmp/tmp4.mp3",
       concatCmd "/tmp/tmp2.txt" "out.mp3"] ∧
     fsGet (process_file (clipSys 7 []) "clip.mp3" "out.mp3" { add_bumper := true }).1.fs
        "out.mp3" =
      some (FContent.concatOf
        ["/tmp/tmp3.mp3", "clip.mp3", "/tmp/tmp1.mp3", "/tmp/tmp4.mp3", "/tmp/tmp1.mp3"])) := by
  decide

/-- Claim C1, counterexample.  A batch of three candidate files where
the second fails (its mastering call errors) does not continue: the
exception propagates out of run_batch, the third file is never visited
and produces no output, and no summary follows — contradicting the
claim that a per-item failure yields a Failed entry while processing of
all remaining files still takes place. -/
theorem C1_counterexample :
    (run_batch (batchSys [true, true, true, true, true, false])
        ["a.wav", "b.wav", "c.wav"] "in" "out" {} false).2.1 =
      [("a.wav", BatchResult.Produced),
       ("b.wav", BatchResult.Failed Err.calledProcessError)] ∧
    (run_batch (batchSys [true, true, true, true, true, false])
        ["a.wav", "b.wav", "c.wav"] "in" "out" {} false).2.2 =
      some Err.calledProcessError ∧
    fsExists (run_batch (batchSys [true, true, true, true, true, false])
        ["a.wav", "b.wav", "c.wav"] "in" "out" {} false).1.fs "out/a.mp3" = true ∧
    fsExists (run_batch (batchSys [true, true, true, true, true, false])
        ["a.wav", "b.wav", "c.wav"] "in" "out" {} false).1.fs "out/c.mp3" = false := by
  decide

/-- Claim C1, amended.  In run_batch of master_av.py a per-file failure
is not isolated: whenever processing a candidate raises an abnormal
termination, the batch stops at that entry and the remaining filenames
are never visited, for every possible remainder of the work set.  By
contrast, the batch loop of audiovault_master.py does process every
file despite a middle failure and concludes with its summary message. -/
theorem C1_theorem :
    (∀ (s : Sys) (fn : String) (rest : List String) (in_dir out_dir : FPath)
        (fl : Flags) (force : Bool) (s2 : Sys) (e : Err),
      fsExists s.fs (in_dir ++ "/" ++ fn) = true →
      [".wav", ".mp3"].contains (lowerStr (splitext fn).2) = true →
      fsExists s.fs (out_dir ++ "/" ++ (splitext fn).1 ++ ".mp3") = false →
      process_file { s with events := s.events ++
          [Event.print ("Processing: " ++ (in_dir ++ "/" ++ fn))] }
        (in_dir ++ "/" ++ fn) (out_dir ++ "/" ++ (splitext fn).1 ++ ".mp3") fl =
        (s2, some e) →
      run_batch s (fn :: rest) in_dir out_dir fl force =
        (s2, [(fn, BatchResult.Failed e)], some e)) ∧
    ((av_batch avSys [("x.wav", "o/x.mp3"), ("y.wav", "o/y.mp3"), ("z.wav", "o/z.mp3")]
        false).2 = [true, false, true] ∧
     (av_batch avSys [("x.wav", "o/x.mp3"), ("y.wav", "o/y.mp3"), ("z.wav", "o/z.mp3")]
        false).1.events.getLast? = some (Event.print "Batch processing complete!")) := by
  constructor
  · intro s fn rest in_dir out_dir fl force s2 e h1 h2 h3 h4
    simp only [run_batch, h1, h2, h3, h4, Bool.not_true, Bool.false_and, Bool.not_false,
      Bool.false_eq_true, if_false, if_true]
  · decide

/-- Claim C1, witness for the amended abort property: a one-file batch
whose head bumper is missing aborts with the missing-asset exit. -/
theorem C1_witness :
    run_batch noHeadBatchSys ["a.wav"] "in" "out" {} false =
      ((process_file { noHeadBatchSys with events := noHeadBatchSys.events ++
            [Event.print ("Processing: " ++ ("in" ++ "/" ++ "a.wav"))] }
          ("in" ++ "/" ++ "a.wav") ("out" ++ "/" ++ (splitext "a.wav").1 ++ ".mp3")
          {}).1,
       [("a.wav", BatchResult.Failed missHeadErr)], some missHeadErr) :=
  C1_theorem.1 noHeadBatchSys "a.wav" [] "in" "out" {} false _ missHeadErr
    (by decide) (by decide) (by decide) (by decide)

/-- Claim C4, counterexample.  The flag set that omits only the tail
passes validation, yet its plan is head followed by body: two segments,
a count outside the claimed set of one, four or five, as also realized
by the concat call of a concrete run consuming exactly two segments. -/
theorem C4_counterexample :
    validate_args fl_nt = none ∧
    plan fl_nt = [Segment.head, Segment.body] ∧
    ¬ ((plan fl_nt).length ∈ ([1, 4, 5] : List Nat)) ∧
    fsGet (process_file (clipSys 7 []) "clip.mp3" "out.mp3" fl_nt).1.fs "out.mp3" =
      some (FContent.concatOf ["/tmp/tmp3.mp3", "/tmp/tmp0.mp3"]) := by
  decide

/-- Claim C4, amended.  For every flag combination that passes
validation the plan contains exactly one body entry and its segment
count lies in the set of one, two, four or five — two arising when the
tail is omitted while the head is kept; the plan is built exactly as
claimed (body always, head before body unless omitted or skipped, the
silence, tail, silence triple after body unless the tail is omitted).
Representative runs realize the planned segment lists in their concat
calls. -/
theorem C4_theorem :
    (∀ f : Flags, validate_args f = none →
      (plan f).length ∈ ([1, 2, 4, 5] : List Nat) ∧
      (plan f).count Segment.body = 1) ∧
    fsGet (process_file (clipSys 7 []) "clip.mp3" "out.mp3" {}).1.fs "out.mp3" =
      some (FContent.concatOf
        (planPaths {} "/tmp/tmp3.mp3" "/tmp/tmp0.mp3" "/tmp/tmp1.mp3" "/tmp/tmp4.mp3")) ∧
    fsGet (process_file (clipSys 7 []) "clip.mp3" "out.mp3" fl_nh).1.fs "out.mp3" =
      some (FContent.concatOf
        (planPaths fl_nh "unused" "/tmp/tmp0.mp3" "/tmp/tmp1.mp3" "/tmp/tmp3.mp3")) ∧
    fsGet (process_file (clipSys 7 []) "clip.mp3" "out.mp3" fl_nt).1.fs "out.mp3" =
      some (FContent.concatOf
        (planPaths fl_nt "/tmp/tmp3.mp3" "/tmp/tmp0.mp3" "unused" "unused")) := by
  refine ⟨?_, by decide, by decide, by decide⟩
  intro f _
  rcases f with ⟨ab, sb, dr, ch, ct, nh, nt⟩
  cases sb <;> cases nh <;> cases nt <;> simp [plan]

/-- Claim C4, witness for the amended plan property at default flags. -/
theorem C4_witness :
    validate_args {} = none ∧
    ((plan {}).length ∈ ([1, 2, 4, 5] : List Nat) ∧
     (plan {}).count Segment.body = 1) :=
  ⟨by decide, C4_theorem.1 {} (by decide)⟩

/-- Claim C8.  Whenever bumpers are skipped, for any input content and
either mastering mode, the plan is exactly the body, no external
concatenation call is issued, assembly is a direct rename of the body
onto the output, and the output carries exactly the body segment
content (the raw input in bumper-only mode, the mastered intermediate
otherwise). -/
theorem C8_theorem (ab : Bool) :
    plan { add_bumper := ab, skip_bumper := true } = [Segment.body] ∧
    (process_file ⟨[("clip.mp3", FContent.data 7)], [], 0, [], 0⟩ "clip.mp3" "out.mp3"
        { add_bumper := ab, skip_bumper := true }).2 = none ∧
    (runCmds (process_file ⟨[("clip.mp3", FContent.data 7)], [], 0, [], 0⟩ "clip.mp3"
        "out.mp3" { add_bumper := ab, skip_bumper := true }).1.events).all
      (fun c => !(c.contains "concat")) = true ∧
    (process_file ⟨[("clip.mp3", FContent.data 7)], [], 0, [], 0⟩ "clip.mp3" "out.mp3"
        { add_bumper := ab, skip_bumper := true }).1.events.getLast? =
      some (Event.renamed (if ab then "clip.mp3" else "/tmp/tmp0.mp3") "out.mp3") ∧
    fsGet (process_file ⟨[("clip.mp3", FContent.data 7)], [], 0, [], 0⟩ "clip.mp3"
        "out.mp3" { add_bumper := ab, skip_bumper := true }).1.fs "out.mp3" =
      some (if ab then FContent.data 7 else FContent.data 100) := by
  cases ab <;> decide

/-- Concrete state for the existing-output skip witness. -/
def skipSys : Sys :=
  ⟨[("in/a.wav", FContent.data 1), ("out/a.mp3", FContent.data 2)], [], 0, [], 0⟩

/-- Claim C9.  Batch runs are idempotent under the skip policy: any
candidate whose computed output already exists is SkippedExisting when
force is unset, only a log line is recorded for it and the filesystem
is handed unchanged to the remaining entries; and running a concrete
batch twice with force unset produces SkippedExisting for every
candidate of the second run and leaves the filesystem exactly as the
first run left it. -/
theorem C9_theorem :
    (∀ (s : Sys) (fn : String) (rest : List String) (in_dir out_dir : FPath) (fl : Flags),
      fsExists s.fs (in_dir ++ "/" ++ fn) = true →
      [".wav", ".mp3"].contains (lowerStr (splitext fn).2) = true →
      fsExists s.fs (out_dir ++ "/" ++ (splitext fn).1 ++ ".mp3") = true →
      run_batch s (fn :: rest) in_dir out_dir fl false =
        ((run_batch { s with events := s.events ++
            [Event.print ("Skipping existing file: " ++
              (out_dir ++ "/" ++ (splitext fn).1 ++ ".mp3"))] }
            rest in_dir out_dir fl false).1,
         (fn, BatchResult.SkippedExisting) ::
           (run_batch { s with events := s.events ++
              [Event.print ("Skipping existing file: " ++
                (out_dir ++ "/" ++ (splitext fn).1 ++ ".mp3"))] }
              rest in_dir out_dir fl false).2.1,
         (run_batch { s with events := s.events ++
            [Event.print ("Skipping existing file: " ++
              (out_dir ++ "/" ++ (splitext fn).1 ++ ".mp3"))] }
            rest in_dir out_dir fl false).2.2)) ∧
    ((run_batch (batchSys []) ["a.wav", "b.wav", "c.wav", "notes.txt"] "in" "out" {}
        false).2.2 = none ∧
     (run_batch (run_batch (batchSys []) ["a.wav", "b.wav", "c.wav", "notes.txt"]
          "in" "out" {} false).1
        ["a.wav", "b.wav", "c.wav", "notes.txt"] "in" "out" {} false).2.1 =
      [("a.wav", BatchResult.SkippedExisting), ("b.wav", BatchResult.SkippedExisting),
       ("c.wav", BatchResult.SkippedExisting)] ∧
     (run_batch (run_batch (batchSys []) ["a.wav", "b.wav", "c.wav", "notes.txt"]
          "in" "out" {} false).1
        ["a.wav", "b.wav", "c.wav", "notes.txt"] "in" "out" {} false).2.2 = none ∧
     (run_batch (run_batch (batchSys []) ["a.wav", "b.wav", "c.wav", "notes.txt"]
          "in" "out" {} false).1
        ["a.wav", "b.wav", "c.wav", "notes.txt"] "in" "out" {} false).1.fs =
      (run_batch (batchSys []) ["a.wav", "b.wav", "c.wav", "notes.txt"] "in" "out" {}
        false).1.fs) := by
  constructor
  · intro s fn rest in_dir out_dir fl h1 h2 h3
    simp only [run_batch, h1, h2, h3, Bool.not_true, Bool.not_false, Bool.and_true,
      Bool.false_eq_true, if_false, if_true]
  · decide

/-- Claim C9, witness for the per-entry skip property. -/
theorem C9_witness :
    run_batch skipSys ["a.wav"] "in" "out" {} false =
      ({ skipSys with events := [Event.print "Skipping existing file: out/a.mp3"] },
       [("a.wav", BatchResult.SkippedExisting)], none) :=
  C9_theorem.1 skipSys "a.wav" [] "in" "out" {} (by decide) (by decide) (by decide)

/-- Filesystem for the single-file overwrite scenario: the output path
already exists with content m before the run. -/
def ovFS (m n : Nat) : FS :=
  [("in.mp3", FContent.data n), ("out.mp3", FContent.data m),
   (DEFAULT_HEAD, FContent.data 1), (DEFAULT_TAIL, FContent.data 2),
   (SILENCE_PATH, FContent.data 3)]

/-- Initial state over ovFS. -/
def ovSys (m n : Nat) : Sys :=
  ⟨ovFS m n, [], 0, [], 0⟩

/-- Claim C10.  Single-file mode performs no existing-output check: for
any pre-existing destination content and any value of the force flag
(which this mode never consults), the run proceeds without an
AlreadyExists refusal and silently replaces the destination — via the
concat call in the default mode, every issued external call carrying
the overwrite flag, and via a rename over the destination in the
skip-bumper mode, which also moves the input away. -/
theorem C10_theorem (force : Bool) :
    (main_single (ovSys 9 7) "in.mp3" "out.mp3" {} force).2 = none ∧
    fsGet (main_single (ovSys 9 7) "in.mp3" "out.mp3" {} force).1.fs "out.mp3" =
      some (FContent.concatOf
        ["/tmp/tmp3.mp3", "/tmp/tmp0.mp3", "/tmp/tmp1.mp3", "/tmp/tmp4.mp3", "/tmp/tmp1.mp3"]) ∧
    (runCmds (main_single (ovSys 9 7) "in.mp3" "out.mp3" {} force).1.events).all
      (fun c => c.contains "-y") = true ∧
    (main_single (ovSys 9 7) "in.mp3" "out.mp3"
        { add_bumper := true, skip_bumper := true } force).2 = none ∧
    fsGet (main_single (ovSys 9 7) "in.mp3" "out.mp3"
        { add_bumper := true, skip_bumper := true } force).1.fs "out.mp3" =
      some (FContent.data 7) ∧
    fsExists (main_single (ovSys 9 7) "in.mp3" "out.mp3"
        { add_bumper := true, skip_bumper := true } force).1.fs "in.mp3" = false := by
  cases force <;> decide
